import Mathlib

/-!
A verification development for the forms-MCP form-selection assistant: the
intent matcher (`analyzeUserIntent` and its `FORM_KEYWORDS` table in
`build/form-templates.js`) and the two interaction engines of
`src/elicitation-engine.ts` (the per-template elicitation variant and the
question-tree discovery variant), embedded shallowly.

Modelling conventions:
* JS strings are Lean `String`s; character-level work happens on `List Char`.
* `toLowerCase` is modelled on ASCII letters (all catalog data is ASCII).
* Confidence weights 0.3/0.4/0.5 and the thresholds 0.2/1.0 are modelled
  exactly, in tenths, as naturals (3/4/5/2/10).  For this catalog the only
  float sums that are mathematically equal are also equal as IEEE doubles
  (sums that cap at 1.0 become exactly 1.0, and 0.3+0.5 = 0.4+0.4 = the
  double of 0.8), so every comparison made by the JS code agrees with the
  exact arithmetic used here.
* JS `Record` objects used as string maps become ordered association lists;
  property assignment overwrites in place and appends new keys, matching JS
  insertion-order semantics for string keys.
* The JS regexes in the catalog use only literal runs, `.*` and `.?`; they
  are embedded as a small pattern datatype with exactly those forms (`.`
  does not match a newline and `test` is an unanchored search).  Every
  pattern literal is lowercase and every tested input has been lowercased,
  which accounts for the `i` flag.
-/

namespace FormsPoc

/-- ASCII lowercasing of one character, as JS `toLowerCase` acts on the catalog data. -/
def lowerChar (c : Char) : Char :=
  if 'A' ≤ c ∧ c ≤ 'Z' then Char.ofNat (c.toNat + 32) else c

/-- Lowercase a whole character list. -/
def lowerList (s : List Char) : List Char := s.map lowerChar

/-- Whitespace stripped by JS `trim` (the relevant whitespace characters). -/
def isWs (c : Char) : Bool := c = ' ' ∨ c = '\t' ∨ c = '\n' ∨ c = '\r'

/-- JS `String.prototype.trim`: strip whitespace from both ends. -/
def trimList (s : List Char) : List Char :=
  ((s.dropWhile isWs).reverse.dropWhile isWs).reverse

/-- Whether `sub` occurs as a contiguous substring of the second list (JS `String.includes`). -/
def containsSub (sub : List Char) : List Char → Bool
  | [] => sub.isEmpty
  | c :: rest => sub.isPrefixOf (c :: rest) || containsSub sub rest

/-- A `.*` gap: skip any characters except newline, then `b` must start. -/
def gapMatch (b : List Char) : List Char → Bool
  | [] => b.isPrefixOf ([] : List Char)
  | c :: rest => b.isPrefixOf (c :: rest) || (!(c = '\n') && gapMatch b rest)

/-- Unanchored test of the regex `a.*b` (JS `.` does not match a newline). -/
def dotStarTest (a b : List Char) : List Char → Bool
  | [] => a.isPrefixOf ([] : List Char) && gapMatch b []
  | c :: rest =>
    (a.isPrefixOf (c :: rest) && gapMatch b ((c :: rest).drop a.length))
      || dotStarTest a b rest

/-- An optional single non-newline character, then `b` (the `.?` step). -/
def optMatch (b : List Char) (s : List Char) : Bool :=
  b.isPrefixOf s ||
    (match s with
     | [] => false
     | c :: rest => !(c = '\n') && b.isPrefixOf rest)

/-- Unanchored test of the regex `a.?b`. -/
def dotOptTest (a b : List Char) : List Char → Bool
  | [] => a.isPrefixOf ([] : List Char) && optMatch b []
  | c :: rest =>
    (a.isPrefixOf (c :: rest) && optMatch b ((c :: rest).drop a.length))
      || dotOptTest a b rest

/-- The regex shapes actually present in `FORM_KEYWORDS`: a literal run,
`lit1.*lit2`, or `lit1.?lit2` (each with the `i` flag, see the module comment). -/
inductive Pat where
  | lit (a : String)
  | dotStar (a b : String)
  | dotOpt (a b : String)
deriving DecidableEq

/-- Embeds `pattern.test(s)` for the pattern shapes above. -/
def patTest (p : Pat) (s : List Char) : Bool :=
  match p with
  | .lit a => containsSub a.data s
  | .dotStar a b => dotStarTest a.data b.data s
  | .dotOpt a b => dotOptTest a.data b.data s

/-- JS `formId.replace('-', ' ')`: only the FIRST hyphen is replaced. -/
def replaceFirstDash : List Char → List Char
  | [] => []
  | c :: rest => if c = '-' then ' ' :: rest else c :: replaceFirstDash rest

/-- All hyphens replaced by spaces, the way the specification's wording reads. -/
def replaceAllDash (s : List Char) : List Char :=
  s.map (fun c => if c = '-' then ' ' else c)

/-- One entry of the `FORM_KEYWORDS` table. -/
structure FormEntry where
  id : String
  keywords : List String
  patterns : List Pat
deriving DecidableEq

/-- The `FORM_KEYWORDS` table from `build/form-templates.js`, in object-literal order. -/
def FORM_KEYWORDS : List FormEntry := [
  { id := "beneficiary-change",
    keywords := ["beneficiary", "change beneficiary", "update beneficiary",
      "new beneficiary", "primary beneficiary", "secondary beneficiary",
      "heir", "inheritance"],
    patterns := [.lit "beneficiary", .dotStar "change" "beneficiary",
      .dotStar "update" "beneficiary", .dotStar "new" "beneficiary"] },
  { id := "loan-form",
    keywords := ["loan", "borrow", "policy loan", "cash advance",
      "loan against policy", "policy value", "cash value loan"],
    patterns := [.lit "loan", .lit "borrow", .dotStar "cash" "advance",
      .dotStar "policy" "loan", .dotStar "loan" "against"] },
  { id := "reinstatement-application",
    keywords := ["reinstate", "reinstatement", "lapsed policy", "restore policy",
      "reactivate", "policy lapsed", "bring back policy"],
    patterns := [.lit "reinstate", .lit "lapsed", .dotStar "restore" "policy",
      .lit "reactivate", .dotStar "bring" "back"] },
  { id := "surrender-form",
    keywords := ["surrender", "cash out", "cancel policy", "terminate policy",
      "cash surrender", "policy surrender", "cash value"],
    patterns := [.lit "surrender", .dotStar "cash" "out", .dotStar "cancel" "policy",
      .dotStar "terminate" "policy", .dotStar "cash" "value"] },
  { id := "non-forfeiture-option",
    keywords := ["non-forfeiture", "forfeiture option", "paid-up", "extended term",
      "cash surrender option", "policy options"],
    patterns := [.dotOpt "non" "forfeiture", .dotOpt "paid" "up",
      .dotStar "extended" "term", .dotStar "policy" "option"] },
  { id := "annuity-contract-change",
    keywords := ["annuity", "contract change", "annuity change", "payment frequency",
      "investment allocation", "annuity contract"],
    patterns := [.lit "annuity", .dotStar "contract" "change",
      .dotStar "payment" "frequency", .dotStar "investment" "allocation"] },
  { id := "amendment-request",
    keywords := ["amendment", "policy amendment", "change policy", "modify policy",
      "coverage change", "rider", "policy modification"],
    patterns := [.lit "amendment", .dotStar "modify" "policy",
      .dotStar "change" "policy", .dotStar "coverage" "change", .lit "rider"] }
]

/-- Embeds `userInput.toLowerCase().trim()` from the top of `analyzeUserIntent`. -/
def normalizeInput (userInput : String) : List Char :=
  trimList (lowerList userInput.data)

/-- Confidence accumulation for one catalog entry, in tenths: exactly the
keyword loop (+0.3 each), the pattern loop (+0.4 each) and the exact-id boost
(+0.5) of `analyzeUserIntent`, before the cap. -/
def confidenceFor (e : FormEntry) (norm : List Char) : Nat :=
  let afterKw := e.keywords.foldl
    (fun acc kw => if containsSub (lowerList kw.data) norm then acc + 3 else acc) 0
  let afterPat := e.patterns.foldl
    (fun acc p => if patTest p norm then acc + 4 else acc) afterKw
  if containsSub (replaceFirstDash e.id.data) norm then afterPat + 5 else afterPat

/-- The `matchedKeywords` list pushed by the keyword loop (in keyword order). -/
def matchedKeywordsFor (e : FormEntry) (norm : List Char) : List String :=
  e.keywords.filter (fun kw => containsSub (lowerList kw.data) norm)

/-- One property of an `elicitationSchema`.  Display-only members of the JS
objects that no engine code reads (`enumNames`, `default`) are omitted. -/
structure FieldSchema where
  type : String
  title : String
  description : String
  format : Option String := none
  enum : Option (List String) := none
  minLength : Option Nat := none
  maxLength : Option Nat := none
  minimum : Option Nat := none
  maximum : Option Nat := none
deriving DecidableEq

/-- The `elicitationSchema` object of a template: ordered properties plus the
`required` name list. -/
structure ElicitationSchema where
  properties : List (String × FieldSchema)
  required : List String
deriving DecidableEq

/-- A form template of the catalog (`FORM_TEMPLATES` in `build/form-templates.js`). -/
structure FormTemplate where
  id : String
  title : String
  description : String
  keywords : List String
  scenarios : List String
  elicitationSchema : ElicitationSchema
deriving DecidableEq

/-- The static `FORM_TEMPLATES` catalog, in array order, properties in
object-literal order. -/
def FORM_TEMPLATES : List FormTemplate := [
  { id := "beneficiary-change",
    title := "Beneficiary Change Request",
    description := "Change the beneficiary on your life insurance policy",
    keywords := ["beneficiary", "change beneficiary", "update beneficiary",
      "new beneficiary", "primary beneficiary", "secondary beneficiary",
      "heir", "inheritance"],
    scenarios := ["I want to change my beneficiary",
      "Need to update who gets my benefits",
      "My beneficiary information is outdated"],
    elicitationSchema :=
      { properties := [
          ("policyNumber",
            { type := "string", title := "Policy Number",
              description := "Your insurance policy number",
              minLength := some 6, maxLength := some 20 }),
          ("policyholderName",
            { type := "string", title := "Policyholder Name",
              description := "Full name of the policyholder",
              minLength := some 2, maxLength := some 100 }),
          ("currentBeneficiary",
            { type := "string", title := "Current Beneficiary",
              description := "Name of the current primary beneficiary",
              minLength := some 2, maxLength := some 100 }),
          ("newBeneficiaryName",
            { type := "string", title := "New Beneficiary Name",
              description := "Full name of the new primary beneficiary",
              minLength := some 2, maxLength := some 100 }),
          ("relationship",
            { type := "string", title := "Relationship",
              description := "Relationship of new beneficiary to policyholder",
              enum := some ["Spouse", "Child", "Parent", "Sibling", "Other"] }),
          ("beneficiaryDob",
            { type := "string", format := some "date",
              title := "Beneficiary Date of Birth",
              description := "Date of birth of the new beneficiary" }),
          ("percentage",
            { type := "number", title := "Percentage",
              description := "Percentage of benefits for this beneficiary",
              minimum := some 1, maximum := some 100 })],
        required := ["policyNumber", "policyholderName", "currentBeneficiary",
          "newBeneficiaryName", "relationship", "beneficiaryDob", "percentage"] } },
  { id := "loan-form",
    title := "Policy Loan Application",
    description := "Apply for a loan against your life insurance policy",
    keywords := ["loan", "borrow", "policy loan", "cash advance",
      "loan against policy", "policy value", "cash value loan"],
    scenarios := ["I need a loan against my policy",
      "Want to borrow money from my policy",
      "Need cash from my policy value"],
    elicitationSchema :=
      { properties := [
          ("policyNumber",
            { type := "string", title := "Policy Number",
              description := "Your insurance policy number",
              minLength := some 6, maxLength := some 20 }),
          ("policyholderName",
            { type := "string", title := "Policyholder Name",
              description := "Full name of the policyholder",
              minLength := some 2, maxLength := some 100 }),
          ("loanAmount",
            { type := "string", title := "Loan Amount",
              description := "Amount you wish to borrow (e.g., $25,000.00)",
              minLength := some 1, maxLength := some 20 }),
          ("loanPurpose",
            { type := "string", title := "Loan Purpose",
              description := "Purpose of the loan",
              enum := some ["Home improvement", "Education", "Medical expenses",
                "Business investment", "Debt consolidation", "Other"] }),
          ("disbursementMethod",
            { type := "string", title := "Disbursement Method",
              description := "How would you like to receive the loan proceeds?",
              enum := some ["Direct deposit", "Check by mail", "Wire transfer"] })],
        required := ["policyNumber", "policyholderName", "loanAmount",
          "loanPurpose", "disbursementMethod"] } },
  { id := "reinstatement-application",
    title := "Policy Reinstatement Application",
    description := "Apply to reinstate a lapsed life insurance policy",
    keywords := ["reinstate", "reinstatement", "lapsed policy", "restore policy",
      "reactivate", "policy lapsed", "bring back policy"],
    scenarios := ["My policy lapsed and I want to reinstate it",
      "Need to restore my cancelled policy",
      "Want to reactivate my policy"],
    elicitationSchema :=
      { properties := [
          ("policyNumber",
            { type := "string", title := "Policy Number",
              description := "Your insurance policy number",
              minLength := some 6, maxLength := some 20 }),
          ("policyholderName",
            { type := "string", title := "Policyholder Name",
              description := "Full name of the policyholder",
              minLength := some 2, maxLength := some 100 }),
          ("lapseDate",
            { type := "string", format := some "date",
              title := "Lapse Date",
              description := "Date when the policy lapsed" }),
          ("reasonForLapse",
            { type := "string", title := "Reason for Lapse",
              description := "Reason why the policy lapsed",
              enum := some ["Financial hardship", "Forgot to pay",
                "Changed address", "Other"] }),
          ("healthChanged",
            { type := "boolean", title := "Health Status Changed",
              description := "Has your health status changed since the policy lapsed?" })],
        required := ["policyNumber", "policyholderName", "lapseDate",
          "reasonForLapse", "healthChanged"] } },
  { id := "surrender-form",
    title := "Policy Surrender Form",
    description := "Surrender your life insurance policy for cash value",
    keywords := ["surrender", "cash out", "cancel policy", "terminate policy",
      "cash surrender", "policy surrender", "cash value"],
    scenarios := ["I want to surrender my policy",
      "Need to cash out my policy",
      "Want to cancel and get cash value"],
    elicitationSchema :=
      { properties := [
          ("policyNumber",
            { type := "string", title := "Policy Number",
              description := "Your insurance policy number",
              minLength := some 6, maxLength := some 20 }),
          ("policyholderName",
            { type := "string", title := "Policyholder Name",
              description := "Full name of the policyholder",
              minLength := some 2, maxLength := some 100 }),
          ("surrenderType",
            { type := "string", title := "Surrender Type",
              description := "Type of surrender requested",
              enum := some ["Full surrender", "Partial surrender"] }),
          ("surrenderAmount",
            { type := "string", title := "Surrender Amount",
              description := "Amount to surrender (for partial surrender only)",
              minLength := some 0, maxLength := some 20 }),
          ("reason",
            { type := "string", title := "Reason for Surrender",
              description := "Reason for surrendering the policy",
              enum := some ["Financial need", "No longer needed",
                "Found better coverage", "Other"] })],
        required := ["policyNumber", "policyholderName", "surrenderType", "reason"] } },
  { id := "non-forfeiture-option",
    title := "Non-Forfeiture Option Change",
    description := "Change the non-forfeiture option on your policy",
    keywords := ["non-forfeiture", "forfeiture option", "paid-up", "extended term",
      "cash surrender option", "policy options"],
    scenarios := ["I want to change my non-forfeiture option",
      "Need to update my policy options",
      "Want to switch to paid-up or extended term"],
    elicitationSchema :=
      { properties := [
          ("policyNumber",
            { type := "string", title := "Policy Number",
              description := "Your insurance policy number",
              minLength := some 6, maxLength := some 20 }),
          ("policyholderName",
            { type := "string", title := "Policyholder Name",
              description := "Full name of the policyholder",
              minLength := some 2, maxLength := some 100 }),
          ("currentOption",
            { type := "string", title := "Current Option",
              description := "Current non-forfeiture option",
              enum := some ["Cash surrender", "Reduced paid-up",
                "Extended term", "Unknown"] }),
          ("newOption",
            { type := "string", title := "New Option",
              description := "Desired non-forfeiture option",
              enum := some ["Cash surrender", "Reduced paid-up", "Extended term"] })],
        required := ["policyNumber", "policyholderName", "currentOption", "newOption"] } },
  { id := "annuity-contract-change",
    title := "Annuity Contract Change Request",
    description := "Request changes to your annuity contract",
    keywords := ["annuity", "contract change", "annuity change", "payment frequency",
      "investment allocation", "annuity contract"],
    scenarios := ["I want to change my annuity contract",
      "Need to modify my annuity payments",
      "Want to update my investment allocation"],
    elicitationSchema :=
      { properties := [
          ("contractNumber",
            { type := "string", title := "Contract Number",
              description := "Your annuity contract number",
              minLength := some 6, maxLength := some 20 }),
          ("contractHolderName",
            { type := "string", title := "Contract Holder Name",
              description := "Full name of the contract holder",
              minLength := some 2, maxLength := some 100 }),
          ("changeType",
            { type := "string", title := "Change Type",
              description := "Type of change requested",
              enum := some ["Beneficiary change", "Payment frequency",
                "Investment allocation", "Address change", "Other"] }),
          ("changeDetails",
            { type := "string", title := "Change Details",
              description := "Detailed description of the requested change",
              minLength := some 10, maxLength := some 500 }),
          ("effectiveDate",
            { type := "string", format := some "date",
              title := "Effective Date",
              description := "Date when the change should take effect" })],
        required := ["contractNumber", "contractHolderName", "changeType",
          "changeDetails", "effectiveDate"] } },
  { id := "amendment-request",
    title := "Policy Amendment Request",
    description := "Request an amendment to your insurance policy",
    keywords := ["amendment", "policy amendment", "change policy", "modify policy",
      "coverage change", "rider", "policy modification"],
    scenarios := ["I want to amend my policy",
      "Need to change my coverage",
      "Want to add or remove a rider"],
    elicitationSchema :=
      { properties := [
          ("policyNumber",
            { type := "string", title := "Policy Number",
              description := "Your insurance policy number",
              minLength := some 6, maxLength := some 20 }),
          ("policyholderName",
            { type := "string", title := "Policyholder Name",
              description := "Full name of the policyholder",
              minLength := some 2, maxLength := some 100 }),
          ("amendmentType",
            { type := "string", title := "Amendment Type",
              description := "Type of amendment requested",
              enum := some ["Coverage increase", "Coverage decrease",
                "Rider addition", "Rider removal", "Other"] }),
          ("amendmentDetails",
            { type := "string", title := "Amendment Details",
              description := "Detailed description of the requested amendment",
              minLength := some 10, maxLength := some 500 }),
          ("justification",
            { type := "string", title := "Justification",
              description := "Reason for requesting this amendment",
              minLength := some 10, maxLength := some 300 })],
        required := ["policyNumber", "policyholderName", "amendmentType",
          "amendmentDetails", "justification"] } }
]

/-- Embeds `getFormTemplate` from `build/form-templates.js` (`Array.prototype.find`). -/
def getFormTemplate (formName : String) : Option FormTemplate :=
  FORM_TEMPLATES.find? (fun t => t.id == formName)

/-- A suggestion pushed by `analyzeUserIntent`; confidence in tenths. -/
structure FormSuggestion where
  formId : String
  title : String
  description : String
  confidence : Nat
  matchedKeywords : List String
  pdfPath : String
deriving DecidableEq

/-- The per-entry scan of `analyzeUserIntent`: threshold (`confidence > 0.2`
on the uncapped sum), template lookup, then push with the capped confidence. -/
def buildSuggestions (norm : List Char) : List FormEntry → List FormSuggestion
  | [] => []
  | e :: rest =>
    let conf := confidenceFor e norm
    if 2 < conf then
      match getFormTemplate e.id with
      | some t =>
        { formId := e.id, title := t.title, description := t.description,
          confidence := min conf 10,
          matchedKeywords := matchedKeywordsFor e norm,
          pdfPath := "./src/forms/" ++ e.id ++ ".pdf" } :: buildSuggestions norm rest
      | none => buildSuggestions norm rest
    else
      buildSuggestions norm rest

/-- Insert before the first element of no-greater confidence.  Together with
`sortByConfidence` this is the stable descending sort; `Array.prototype.sort`
with comparator `b.confidence - a.confidence` is stable (ES2019) and sorts by
exactly this order, and a stable sort for a fixed preorder is unique. -/
def insertByConfidence (x : FormSuggestion) : List FormSuggestion → List FormSuggestion
  | [] => [x]
  | y :: rest =>
    if y.confidence ≤ x.confidence then x :: y :: rest
    else y :: insertByConfidence x rest

/-- Stable descending-by-confidence sort (see `insertByConfidence`). -/
def sortByConfidence : List FormSuggestion → List FormSuggestion
  | [] => []
  | x :: rest => insertByConfidence x (sortByConfidence rest)

/-- Embeds `analyzeUserIntent` from `build/form-templates.js`.  The JS function takes
a context object and reads its `userInput` member; the input string is passed
directly here. -/
def analyzeUserIntent (userInput : String) : List FormSuggestion :=
  sortByConfidence (buildSuggestions (normalizeInput userInput) FORM_KEYWORDS)

/-- Claim-side confidence formula, following C1's wording: 0.3 per keyword
occurrence, 0.4 per matching pattern, and a 0.5 bonus exactly when the input
contains the id with its separators (ALL of them) replaced by spaces, capped
at 1.0.  Compare with `confidenceFor`, whose boost replaces only the first
separator. -/
def claimConfidence (e : FormEntry) (norm : List Char) : Nat :=
  min 10
    (3 * (e.keywords.countP (fun kw => containsSub (lowerList kw.data) norm))
      + 4 * (e.patterns.countP (fun p => patTest p norm))
      + (if containsSub (replaceAllDash e.id.data) norm then 5 else 0))

/-- JS string-keyed object assignment `obj[k] = v` on an insertion-ordered
association list: overwrite in place if the key exists, else append. -/
def recordSet : List (String × String) → String → String → List (String × String)
  | [], k, v => [(k, v)]
  | (k', v') :: rest, k, v =>
    if k' = k then (k, v) :: rest else (k', v') :: recordSet rest k v

/-- JS property read `obj[k]` (string values only; absent keys give `none`). -/
def recordGet : List (String × String) → String → Option String
  | [], _ => none
  | (k', v') :: rest, k => if k' = k then some v' else recordGet rest k

/-- JS `x || fallback` where `x` is `processedValue` (possibly `undefined`),
so both `undefined` and the empty string fall through to the fallback. -/
def jsOrStr (x : Option String) (fallback : String) : String :=
  match x with
  | some s => if s = "" then fallback else s
  | none => fallback

/-- The closed set of question types the elicitation engine produces. -/
inductive QType where
  | text
  | date
  | boolean
  | selectQ
deriving DecidableEq

/-- The `validation` bag carried on each question. -/
structure QValidation where
  minLength : Option Nat := none
  maxLength : Option Nat := none
  minimum : Option Nat := none
  maximum : Option Nat := none
deriving DecidableEq

/-- Embeds `ElicitationQuestion` from `src/elicitation-engine.ts`. -/
structure ElicitationQuestion where
  fieldName : String
  question : String
  description : String
  type : QType
  required : Bool
  options : Option (List String) := none
  validation : QValidation := {}
deriving DecidableEq

/-- Embeds `ElicitationState` from `src/elicitation-engine.ts`. -/
structure ElicitationState where
  formId : String
  formTitle : String
  currentQuestionIndex : Nat
  answers : List (String × String)
  isComplete : Bool
  questions : List ElicitationQuestion
deriving DecidableEq

/-- Embeds the `ValidationResult` interface. -/
structure ValidationResult where
  valid : Bool
  error : Option String := none
  processedValue : Option String := none
deriving DecidableEq

/-- Embeds the `ProcessAnswerResult` interface. -/
structure ProcessAnswerResult where
  success : Bool
  error : Option String := none
  completed : Option Bool := none
deriving DecidableEq

/-- Embeds `StartResult`: the `{ success, error? }` object returned by `startElicitation`. -/
structure StartResult where
  success : Bool
  error : Option String := none
deriving DecidableEq

namespace Elicitation

/-- Embeds `convertSchemaToQuestions`: derive the ordered question list from a
template's field schema.  The type dispatch follows the source exactly:
boolean beats date format beats enum, else free text; `field.title ||
fieldName` is JS truthiness on the title string. -/
def convertSchemaToQuestions (schema : ElicitationSchema) : List ElicitationQuestion :=
  schema.properties.map (fun fieldPair =>
    let fieldName := fieldPair.1
    let field := fieldPair.2
    let typeAndOptions : QType × Option (List String) :=
      if field.type = "boolean" then (.boolean, none)
      else if field.format = some "date" then (.date, none)
      else
        match field.enum with
        | some opts => (.selectQ, some opts)
        | none => (.text, none)
    { fieldName := fieldName,
      question := if field.title = "" then fieldName else field.title,
      description := field.description,
      type := typeAndOptions.1,
      required := schema.required.contains fieldName,
      options := typeAndOptions.2,
      validation := { minLength := field.minLength, maxLength := field.maxLength,
                      minimum := field.minimum, maximum := field.maximum } })

/-- Embeds `startElicitation`: look the template up; on failure return the error and
leave the engine's session untouched; on success install a fresh session. -/
def startElicitation (formTemplates : List FormTemplate)
    (currentState : Option ElicitationState) (formId : String) :
    Option ElicitationState × StartResult :=
  match formTemplates.find? (fun t => t.id == formId) with
  | none =>
    (currentState,
      { success := false, error := some ("Form template not found: " ++ formId) })
  | some template =>
    (some { formId := template.id, formTitle := template.title,
            currentQuestionIndex := 0, answers := [], isComplete := false,
            questions := convertSchemaToQuestions template.elicitationSchema },
     { success := true })

/-- Embeds `getCurrentQuestion` (elicitation variant).  It can mutate the session: a
cursor already past the end flips `isComplete` before returning null. -/
def getCurrentQuestion (currentState : Option ElicitationState) :
    Option ElicitationState × Option ElicitationQuestion :=
  match currentState with
  | none => (none, none)
  | some s =>
    if s.isComplete then (some s, none)
    else if s.questions.length ≤ s.currentQuestionIndex then
      (some { s with isComplete := true }, none)
    else (some s, s.questions.get? s.currentQuestionIndex)

/-- Embeds `validateDate`: the `^\d{4}-\d{2}-\d{2}$` shape test. -/
def dateShape : List Char → Bool
  | [y1, y2, y3, y4, h1, m1, m2, h2, d1, d2] =>
    y1.isDigit && y2.isDigit && y3.isDigit && y4.isDigit && h1 = '-' &&
      m1.isDigit && m2.isDigit && h2 = '-' && d1.isDigit && d2.isDigit
  | _ => false

/-- Numeric value of a digit run. -/
def digitsVal (l : List Char) : Nat :=
  l.foldl (fun acc c => acc * 10 + (c.toNat - '0'.toNat)) 0

/-- Gregorian leap years, as `new Date` resolves February lengths. -/
def isLeap (y : Nat) : Bool := y % 4 = 0 && (y % 100 ≠ 0 || y % 400 = 0)

/-- Days in a month (month given 1-based). -/
def daysInMonth (y m : Nat) : Nat :=
  if m = 2 then (if isLeap y then 29 else 28)
  else if m = 4 || m = 6 || m = 9 || m = 11 then 30
  else 31

/-- The `new Date(answer)` validity check after the shape test: V8 rejects
ISO-format date strings whose month or day is out of calendar range. -/
def isRealDate (s : List Char) : Bool :=
  let y := digitsVal (s.take 4)
  let m := digitsVal ((s.drop 5).take 2)
  let d := digitsVal ((s.drop 8).take 2)
  1 ≤ m && m ≤ 12 && 1 ≤ d && d ≤ daysInMonth y m

/-- Embeds `validateDate` from `src/elicitation-engine.ts`. -/
def validateDate (answer : String) : ValidationResult :=
  if !dateShape answer.data then
    { valid := false, error := some "Please enter date in YYYY-MM-DD format" }
  else if !isRealDate answer.data then
    { valid := false, error := some "Please enter a valid date" }
  else
    { valid := true, processedValue := some answer }

/-- Embeds `validateBoolean`: case-insensitive membership in the affirmative or
negative word sets, normalized to "true"/"false". -/
def validateBoolean (answer : String) : ValidationResult :=
  let normalized : List Char := trimList (lowerList answer.data)
  if ["true", "yes", "y", "1"].any (fun w => w.data = normalized) then
    { valid := true, processedValue := some "true" }
  else if ["false", "no", "n", "0"].any (fun w => w.data = normalized) then
    { valid := true, processedValue := some "false" }
  else
    { valid := false, error := some "Please enter yes/no, true/false, or y/n" }

/-- Embeds `validateSelect`: case-insensitive match against the declared options,
normalized to the declared casing. -/
def validateSelect (question : ElicitationQuestion) (answer : String) : ValidationResult :=
  match question.options with
  | none => { valid := false, error := some "No options available for this question" }
  | some options =>
    let normalizedAnswer := trimList answer.data
    match options.find? (fun option =>
        lowerList option.data == lowerList normalizedAnswer) with
    | none =>
      { valid := false,
        error := some ("Please select one of: " ++ String.intercalate ", " options) }
    | some matchedOption => { valid := true, processedValue := some matchedOption }

/-- Embeds `validateText`: trim, then the length-bound checks.  The JS guards are
`question.validation?.minLength && ...`, so a bound of `0` is falsy and is
never enforced (the catalog's `surrenderAmount` declares `minLength: 0`). -/
def validateText (question : ElicitationQuestion) (answer : String) : ValidationResult :=
  let trimmed := trimList answer.data
  let minL := question.validation.minLength.getD 0
  let maxL := question.validation.maxLength.getD 0
  if minL ≠ 0 && trimmed.length < minL then
    { valid := false,
      error := some ("Minimum length is " ++ toString minL ++ " characters") }
  else if maxL ≠ 0 && maxL < trimmed.length then
    { valid := false,
      error := some ("Maximum length is " ++ toString maxL ++ " characters") }
  else
    { valid := true, processedValue := some (String.mk trimmed) }

/-- Embeds `validateAnswer`: the required/empty pre-checks, then dispatch on type. -/
def validateAnswer (question : ElicitationQuestion) (answer : String) : ValidationResult :=
  if question.required && trimList answer.data = [] then
    { valid := false, error := some "This field is required" }
  else if !question.required && trimList answer.data = [] then
    { valid := true, processedValue := some "" }
  else
    match question.type with
    | .date => validateDate answer
    | .boolean => validateBoolean answer
    | .selectQ => validateSelect question answer
    | .text => validateText question answer

/-- Embeds `processAnswer` (elicitation variant).  On a found current question the
state returned by `getCurrentQuestion` is the unchanged session (see
`getCurrentQuestion_found_eq`), so the success path mutates `s` itself, as the
JS method mutates `this.currentState` in place.  The stored value is
`validation.processedValue || answer`. -/
def processAnswer (currentState : Option ElicitationState) (answer : String) :
    Option ElicitationState × ProcessAnswerResult :=
  match currentState with
  | none => (none, { success := false, error := some "No active elicitation session" })
  | some s =>
    let afterGet := getCurrentQuestion (some s)
    match afterGet.2 with
    | none => (afterGet.1,
        { success := false, error := some "No current question or elicitation complete" })
    | some currentQuestion =>
      let validation := validateAnswer currentQuestion answer
      if !validation.valid then
        (afterGet.1, { success := false, error := validation.error })
      else
        let s1 := { s with
          answers := recordSet s.answers currentQuestion.fieldName
            (jsOrStr validation.processedValue answer),
          currentQuestionIndex := s.currentQuestionIndex + 1 }
        if s1.questions.length ≤ s1.currentQuestionIndex then
          (some { s1 with isComplete := true },
           { success := true, completed := some true })
        else
          (some s1, { success := true, completed := some false })

/-- Embeds `resetElicitation`: drop the session. -/
def resetElicitation (_currentState : Option ElicitationState) : Option ElicitationState :=
  none

end Elicitation

/-- Embeds `DiscoveryQuestion`: a node of the fixed question graph.  `followUp` maps
exact answer text to the next node id. -/
structure DiscoveryQuestion where
  id : String
  question : String
  type : String
  options : List String := []
  followUp : Option (List (String × String)) := none
deriving DecidableEq

/-- A value JS bracket access on a string-valued object literal can produce:
an own property's string, or a non-string member inherited from
`Object.prototype` (a built-in function, or the prototype object itself for
`__proto__`), identified here by the accessed name. -/
inductive JsVal where
  | str (s : String)
  | protoMember (name : String)
deriving DecidableEq

/-- JS truthiness of such a value: every inherited member is a function or
object and therefore truthy; a string is truthy when non-empty. -/
def jsTruthy (v : JsVal) : Bool :=
  match v with
  | .str s => s ≠ ""
  | .protoMember _ => true

/-- The property names every object literal inherits from `Object.prototype`
in Node, each of which bracket access resolves to a truthy non-string value. -/
def objectProtoProps : List String :=
  ["constructor", "__defineGetter__", "__defineSetter__", "hasOwnProperty",
   "__lookupGetter__", "__lookupSetter__", "isPrototypeOf",
   "propertyIsEnumerable", "toString", "valueOf", "__proto__", "toLocaleString"]

/-- JS bracket access `obj[key]` on a string-valued object literal: an own
property shadows the prototype; otherwise the lookup continues into
`Object.prototype`; otherwise the result is `undefined` (`none`). -/
def jsObjGet (own : List (String × String)) (key : String) : Option JsVal :=
  match recordGet own key with
  | some v => some (.str v)
  | none => if objectProtoProps.contains key then some (.protoMember key) else none

/-- JS strict equality `s === v` between a string and a stored value: true
exactly when the value is that same string, never for an inherited
non-string member. -/
def jsStrEq (s : String) (v : JsVal) : Bool :=
  match v with
  | .str t => s == t
  | .protoMember _ => false

/-- Embeds the `DiscoveryState` interface.  `currentQuestionId` is declared
`string | null` in TS, but `processAnswer` can store any truthy value bracket
access returned — including a member inherited from `Object.prototype` — so
the field holds a `JsVal`. -/
structure DiscoveryState where
  currentQuestionId : Option JsVal
  answers : List (String × String)
  isComplete : Bool
  suggestedForms : List String
deriving DecidableEq

/-- Embeds the `DiscoveryResult` interface. -/
structure DiscoveryResult where
  success : Bool
  error : Option String := none
  completed : Option Bool := none
  suggestedForms : Option (List String) := none
deriving DecidableEq

namespace Discovery

/-- Embeds `createDiscoveryQuestions`: the built-in question graph, verbatim. -/
def discoveryQuestions : List DiscoveryQuestion := [
  { id := "intent",
    question := "What would you like to do with your insurance policy?",
    type := "select",
    options := ["Change beneficiary information", "Take a loan against my policy",
      "Surrender my policy", "Change policy details", "Apply for reinstatement",
      "Other"],
    followUp := some [
      ("Change beneficiary information", "beneficiary-type"),
      ("Take a loan against my policy", "loan-type"),
      ("Surrender my policy", "surrender-type"),
      ("Change policy details", "change-type"),
      ("Apply for reinstatement", "reinstatement-reason"),
      ("Other", "describe-need")] },
  { id := "beneficiary-type",
    question := "What type of beneficiary change do you need?",
    type := "select",
    options := ["Change primary beneficiary", "Add or change contingent beneficiary",
      "Update beneficiary percentage", "All of the above"] },
  { id := "loan-type",
    question := "What type of loan are you looking for?",
    type := "select",
    options := ["Policy loan (borrow against cash value)", "Automatic premium loan",
      "Other loan option"] },
  { id := "surrender-type",
    question := "What type of surrender are you considering?",
    type := "select",
    options := ["Full surrender (cancel policy)",
      "Partial surrender (withdraw some cash value)",
      "Non-forfeiture option (keep some benefits)"] },
  { id := "change-type",
    question := "What policy details would you like to change?",
    type := "select",
    options := ["Contact information", "Payment method or frequency",
      "Coverage amount", "Policy options or riders", "Other changes"] },
  { id := "reinstatement-reason",
    question := "Why do you need to reinstate your policy?",
    type := "select",
    options := ["Policy lapsed due to non-payment",
      "Policy was surrendered and I want it back",
      "Other reinstatement situation"] },
  { id := "describe-need",
    question := "Please describe what you need help with:",
    type := "text" }
]

/-- Embeds `startDiscovery`: unconditionally installs a fresh session at the root. -/
def startDiscovery (_currentState : Option DiscoveryState) :
    Option DiscoveryState × StartResult :=
  (some { currentQuestionId := some (.str "intent"), answers := [],
          isComplete := false, suggestedForms := [] },
   { success := true })

/-- Embeds `getCurrentQuestion` (discovery variant): null when there is no
session or the stored node id is falsy; otherwise `Array.prototype.find` by
strict equality `q.id === currentQuestionId` (with `|| null`), which no
question satisfies when the stored value is a non-string inherited member. -/
def getCurrentQuestion (currentState : Option DiscoveryState) : Option DiscoveryQuestion :=
  match currentState with
  | none => none
  | some s =>
    match s.currentQuestionId with
    | none => none
    | some v =>
      if jsTruthy v then discoveryQuestions.find? (fun q => jsStrEq q.id v)
      else none

/-- Embeds `suggestFormsBasedOnAnswers`: the fixed root-answer priority mapping, then
the keyword fallback over the concatenated answers, then the default. -/
def suggestFormsBasedOnAnswers (formTemplates : List FormTemplate)
    (answers : List (String × String)) : List String :=
  let intent := recordGet answers "intent"
  let primary : List String :=
    if intent = some "Change beneficiary information" then ["beneficiary-change"]
    else if intent = some "Take a loan against my policy" then ["loan-form"]
    else if intent = some "Surrender my policy" then
      (if recordGet answers "surrender-type"
          = some "Non-forfeiture option (keep some benefits)" then
        ["non-forfeiture-option"]
      else ["surrender-form"])
    else if intent = some "Apply for reinstatement" then ["reinstatement-application"]
    else if intent = some "Change policy details" then ["amendment-request"]
    else []
  let withKeywordScan : List String :=
    if primary = [] then
      let textAnswers := lowerList (String.intercalate " " (answers.map (·.2))).data
      formTemplates.filterMap (fun template =>
        if template.keywords.any (fun keyword =>
            containsSub (lowerList keyword.data) textAnswers) then
          some template.id
        else none)
    else primary
  if withKeywordScan = [] then ["beneficiary-change"] else withKeywordScan

/-- The truthiness-guarded follow-up lookup
`currentQuestion.followUp && currentQuestion.followUp[answer]`.  Bracket
access consults the prototype chain: an own key yields its string target,
and otherwise an `Object.prototype` property name yields a truthy inherited
member; falsy results (no member at all, or an empty-string target) leave no
next node. -/
def followUpNext (q : DiscoveryQuestion) (answer : String) : Option JsVal :=
  match q.followUp with
  | none => none
  | some fu =>
    match jsObjGet fu answer with
    | none => none
    | some v => if jsTruthy v then some v else none

/-- Embeds `processAnswer` (discovery variant): record the answer verbatim, step via
the follow-up map, and on reaching a null next node complete the session and
resolve suggestions. -/
def processAnswer (formTemplates : List FormTemplate)
    (currentState : Option DiscoveryState) (answer : String) :
    Option DiscoveryState × DiscoveryResult :=
  match currentState with
  | none => (none, { success := false, error := some "No active discovery session" })
  | some s =>
    match getCurrentQuestion (some s) with
    | none => (some s, { success := false, error := some "No current question found" })
    | some currentQuestion =>
      let answers1 := recordSet s.answers currentQuestion.id answer
      let nextQuestionId := followUpNext currentQuestion answer
      match nextQuestionId with
      | none =>
        let suggested := suggestFormsBasedOnAnswers formTemplates answers1
        (some { currentQuestionId := none, answers := answers1, isComplete := true,
                suggestedForms := suggested },
         { success := true, completed := some true, suggestedForms := some suggested })
      | some v =>
        (some { currentQuestionId := some v, answers := answers1,
                isComplete := s.isComplete, suggestedForms := s.suggestedForms },
         { success := true, completed := some s.isComplete,
           suggestedForms := if s.isComplete then some s.suggestedForms else none })

/-- Embeds `resetDiscovery`: drop the session. -/
def resetDiscovery (_currentState : Option DiscoveryState) : Option DiscoveryState :=
  none

end Discovery

/-- Position of a form id in the catalog iteration order of `FORM_KEYWORDS`. -/
def catalogIdx (formId : String) : Nat :=
  (FORM_KEYWORDS.map (fun e => e.id)).indexOf formId

/-- The ranking order C4 describes: descending confidence, ties broken by the
position `idx` assigns (catalog iteration order). -/
def confOrder (idx : FormSuggestion → Nat) (a b : FormSuggestion) : Prop :=
  b.confidence ≤ a.confidence ∧ (a.confidence = b.confidence → idx a < idx b)

theorem mem_insertByConfidence {x a : FormSuggestion} {l : List FormSuggestion} :
    a ∈ insertByConfidence x l ↔ a = x ∨ a ∈ l := by
  induction l with
  | nil => simp [insertByConfidence]
  | cons y rest ih =>
    rw [insertByConfidence]
    split
    · simp [or_comm, or_left_comm]
    · simp [ih, or_comm, or_left_comm]

theorem insertByConfidence_perm (x : FormSuggestion) (l : List FormSuggestion) :
    (insertByConfidence x l).Perm (x :: l) := by
  induction l with
  | nil => exact List.Perm.refl _
  | cons y rest ih =>
    rw [insertByConfidence]
    split
    · exact List.Perm.refl _
    · exact (ih.cons y).trans (List.Perm.swap x y rest)

theorem sortByConfidence_perm (l : List FormSuggestion) :
    (sortByConfidence l).Perm l := by
  induction l with
  | nil => exact List.Perm.refl _
  | cons x rest ih =>
    exact (insertByConfidence_perm x (sortByConfidence rest)).trans (ih.cons x)

theorem pairwise_insertByConfidence (idx : FormSuggestion → Nat) (x : FormSuggestion) :
    ∀ l : List FormSuggestion, l.Pairwise (confOrder idx) → (∀ y ∈ l, idx x < idx y) →
      (insertByConfidence x l).Pairwise (confOrder idx)
  | [], _, _ => by simp [insertByConfidence, List.Pairwise.nil]
  | y :: rest, hl, hx => by
    rw [insertByConfidence]
    rcases List.pairwise_cons.mp hl with ⟨hyrest, hrest⟩
    split
    · rename_i hcond
      refine List.pairwise_cons.mpr ⟨?_, hl⟩
      intro z hz
      rcases List.mem_cons.mp hz with rfl | hzr
      · exact ⟨hcond, fun _ => hx z hz⟩
      · exact ⟨le_trans (hyrest z hzr).1 hcond, fun _ => hx z hz⟩
    · rename_i hcond
      have hxy : x.confidence < y.confidence := Nat.lt_of_not_le hcond
      refine List.pairwise_cons.mpr ⟨?_, ?_⟩
      · intro z hz
        rcases mem_insertByConfidence.mp hz with rfl | hzr
        · exact ⟨Nat.le_of_lt hxy, fun heq => absurd heq (Nat.ne_of_gt hxy)⟩
        · exact hyrest z hzr
      · exact pairwise_insertByConfidence idx x rest hrest
          (fun z hz => hx z (List.mem_cons_of_mem y hz))

theorem pairwise_sortByConfidence (idx : FormSuggestion → Nat) :
    ∀ l : List FormSuggestion, l.Pairwise (fun a b => idx a < idx b) →
      (sortByConfidence l).Pairwise (confOrder idx)
  | [], _ => List.Pairwise.nil
  | x :: rest, hl => by
    rcases List.pairwise_cons.mp hl with ⟨hxrest, hrest⟩
    exact pairwise_insertByConfidence idx x (sortByConfidence rest)
      (pairwise_sortByConfidence idx rest hrest)
      (fun z hz => hxrest z ((sortByConfidence_perm rest).mem_iff.mp hz))

theorem buildSuggestions_map_formId (norm : List Char) :
    ∀ entries : List FormEntry, (∀ e ∈ entries, (getFormTemplate e.id).isSome = true) →
      (buildSuggestions norm entries).map (fun s => s.formId)
        = (entries.filter (fun e => decide (2 < confidenceFor e norm))).map (fun e => e.id)
  | [], _ => rfl
  | e :: rest, h => by
    have hrest := buildSuggestions_map_formId norm rest
      (fun e' he' => h e' (List.mem_cons_of_mem e he'))
    have he : (getFormTemplate e.id).isSome = true := h e (List.mem_cons_self e rest)
    rw [buildSuggestions, List.filter_cons]
    by_cases hc : 2 < confidenceFor e norm
    · cases ht : getFormTemplate e.id with
      | none => rw [ht] at he; simp at he
      | some t => simp [hc, ht, hrest]
    · simp [hc, hrest]

theorem mem_buildSuggestions (norm : List Char) :
    ∀ (entries : List FormEntry) (s : FormSuggestion), s ∈ buildSuggestions norm entries →
      ∃ e, e ∈ entries ∧ s.formId = e.id ∧ s.confidence = min (confidenceFor e norm) 10
  | [], s, h => by simp [buildSuggestions] at h
  | e :: rest, s, h => by
    rw [buildSuggestions] at h
    have tail : s ∈ buildSuggestions norm rest →
        ∃ e', e' ∈ e :: rest ∧ s.formId = e'.id ∧ s.confidence = min (confidenceFor e' norm) 10 := by
      intro hs
      rcases mem_buildSuggestions norm rest s hs with ⟨e', he', h1, h2⟩
      exact ⟨e', List.mem_cons_of_mem e he', h1, h2⟩
    by_cases hc : 2 < confidenceFor e norm
    · rw [if_pos hc] at h
      cases ht : getFormTemplate e.id with
      | none => rw [ht] at h; exact tail h
      | some t =>
        rw [ht] at h
        rcases List.mem_cons.mp h with rfl | hs
        · exact ⟨e, List.mem_cons_self e rest, rfl, rfl⟩
        · exact tail hs
    · rw [if_neg hc] at h
      exact tail h

theorem foldl_add_count {α : Type} (f : α → Bool) (k : Nat) :
    ∀ (l : List α) (init : Nat),
      l.foldl (fun acc a => if f a then acc + k else acc) init = init + k * l.countP f
  | [], init => by simp
  | a :: rest, init => by
    rw [List.foldl_cons, List.countP_cons, foldl_add_count f k rest]
    cases h : f a
    · simp [h]
    · simp [h]; ring

theorem confidenceFor_eq (e : FormEntry) (norm : List Char) :
    confidenceFor e norm
      = 3 * (e.keywords.countP (fun kw => containsSub (lowerList kw.data) norm))
        + 4 * (e.patterns.countP (fun p => patTest p norm))
        + (if containsSub (replaceFirstDash e.id.data) norm then 5 else 0) := by
  rw [confidenceFor]
  simp only [foldl_add_count]
  split <;> omega

theorem buildSuggestions_nil_of_low (norm : List Char) :
    ∀ entries : List FormEntry, (∀ e ∈ entries, confidenceFor e norm ≤ 2) →
      buildSuggestions norm entries = []
  | [], _ => rfl
  | e :: rest, h => by
    rw [buildSuggestions, if_neg (Nat.not_lt.mpr (h e (List.mem_cons_self e rest)))]
    exact buildSuggestions_nil_of_low norm rest
      (fun e' he' => h e' (List.mem_cons_of_mem e he'))

/-- C1, counterexample: the claim's confidence formula applies the 0.5 id
bonus whenever the input contains the id with ALL separators replaced by
spaces, but the code's `formId.replace('-', ' ')` replaces only the first
one.  On the input "i want the non forfeiture option" the matcher computes
confidence 0.7 for `non-forfeiture-option` (one keyword, one pattern, no
bonus because the input lacks the substring "non forfeiture-option"), while
the claim's formula yields min(1.0, 0.3 + 0.4 + 0.5) = 1.0. -/
theorem intent_id_bonus_counterexample :
    ((analyzeUserIntent "i want the non forfeiture option").map
        (fun s => (s.formId, s.confidence)) = [("non-forfeiture-option", 7)])
      ∧ ((FORM_KEYWORDS.find? (fun e => e.id == "non-forfeiture-option")).map
          (fun e => claimConfidence e (normalizeInput "i want the non forfeiture option"))
          = some 10) := by
  decide

/-- C1 (amended): for every input and every catalog entry, the confidence the
intent matcher reports for that entry's template is min(1.0, 0.3 per keyword
occurring as a substring of the lowercased+trimmed input, plus 0.4 per regex
pattern matching that input, plus a flat 0.5 bonus exactly when the input
contains the template id with its FIRST separator replaced by a space). -/
theorem intent_confidence_formula (userInput : String) (e : FormEntry)
    (he : e ∈ FORM_KEYWORDS) (s : FormSuggestion)
    (hs : s ∈ analyzeUserIntent userInput) (hid : s.formId = e.id) :
    s.confidence = min 10
      (3 * (e.keywords.countP
            (fun kw => containsSub (lowerList kw.data) (normalizeInput userInput)))
        + 4 * (e.patterns.countP (fun p => patTest p (normalizeInput userInput)))
        + (if containsSub (replaceFirstDash e.id.data) (normalizeInput userInput)
            then 5 else 0)) := by
  have hs' : s ∈ buildSuggestions (normalizeInput userInput) FORM_KEYWORDS :=
    (sortByConfidence_perm _).mem_iff.mp hs
  rcases mem_buildSuggestions _ _ _ hs' with ⟨e', he', hid', hconf⟩
  have hnodup : (FORM_KEYWORDS.map (fun e => e.id)).Nodup := by decide
  have heq : e' = e :=
    List.inj_on_of_nodup_map hnodup he' he (hid'.symm.trans hid)
  subst heq
  rw [hconf, confidenceFor_eq, Nat.min_comm]

/-- The `loan-form` entry of `FORM_KEYWORDS`, spelled out for the witness below. -/
def loanEntry : FormEntry :=
  { id := "loan-form",
    keywords := ["loan", "borrow", "policy loan", "cash advance",
      "loan against policy", "policy value", "cash value loan"],
    patterns := [.lit "loan", .lit "borrow", .dotStar "cash" "advance",
      .dotStar "policy" "loan", .dotStar "loan" "against"] }

/-- The suggestion the matcher produces for the input "loan form". -/
def loanFormSuggestion : FormSuggestion :=
  { formId := "loan-form", title := "Policy Loan Application",
    description := "Apply for a loan against your life insurance policy",
    confidence := 10, matchedKeywords := ["loan"],
    pdfPath := "./src/forms/loan-form.pdf" }

/-- Witness for `intent_confidence_formula` at the input "loan form" and the
`loan-form` catalog entry. -/
theorem intent_confidence_formula_witness :
    loanEntry ∈ FORM_KEYWORDS
    ∧ loanFormSuggestion ∈ analyzeUserIntent "loan form"
    ∧ loanFormSuggestion.confidence
        = min 10
          (3 * (loanEntry.keywords.countP
              (fun kw => containsSub (lowerList kw.data) (normalizeInput "loan form")))
            + 4 * (loanEntry.patterns.countP
              (fun p => patTest p (normalizeInput "loan form")))
            + (if containsSub (replaceFirstDash loanEntry.id.data)
                  (normalizeInput "loan form") then 5 else 0)) :=
  ⟨by decide, by decide,
    intent_confidence_formula "loan form" loanEntry (by decide) loanFormSuggestion
      (by decide) rfl⟩

/-- C4: the matcher returns exactly the templates whose summed confidence
exceeds the 0.2 threshold, ordered descending by confidence with ties broken
by catalog iteration order (the unique stable sort). -/
theorem intent_threshold_and_ranking (userInput : String) :
    (((analyzeUserIntent userInput).map (fun s => s.formId)).Perm
        (((FORM_KEYWORDS.filter
            (fun e => decide (2 < confidenceFor e (normalizeInput userInput)))).map
          (fun e => e.id))))
      ∧ (analyzeUserIntent userInput).Pairwise
          (confOrder (fun s => catalogIdx s.formId)) := by
  have hsome : ∀ e ∈ FORM_KEYWORDS, (getFormTemplate e.id).isSome = true := by decide
  have hmap := buildSuggestions_map_formId (normalizeInput userInput) FORM_KEYWORDS hsome
  constructor
  · rw [analyzeUserIntent, ← hmap]
    exact (sortByConfidence_perm _).map (fun s => s.formId)
  · apply pairwise_sortByConfidence
    have hcat : FORM_KEYWORDS.Pairwise (fun a b => catalogIdx a.id < catalogIdx b.id) := by
      decide
    have hfil := hcat.filter
      (fun e => decide (2 < confidenceFor e (normalizeInput userInput)))
    have h1 : (((FORM_KEYWORDS.filter
          (fun e => decide (2 < confidenceFor e (normalizeInput userInput)))).map
        (fun e => e.id)).Pairwise (fun a b => catalogIdx a < catalogIdx b)) :=
      List.pairwise_map.mpr hfil
    rw [← hmap] at h1
    exact (List.pairwise_map (f := fun s : FormSuggestion => s.formId)
      (R := fun a b => catalogIdx a < catalogIdx b)).mp h1

/-- C8: the matcher is a total function (it is a plain Lean `def`, so it can
neither throw nor diverge); whenever no catalog entry accumulates confidence
above the threshold — in particular for the empty input and for inputs with
no matching words — the result is the empty list. -/
theorem intent_no_match_empty (userInput : String)
    (h : ∀ e ∈ FORM_KEYWORDS, confidenceFor e (normalizeInput userInput) ≤ 2) :
    analyzeUserIntent userInput = [] := by
  rw [analyzeUserIntent, buildSuggestions_nil_of_low _ _ h]
  rfl

/-- Witness for `intent_no_match_empty`: the empty input (and, for the
"unknown words" reading, an input with no matching words). -/
theorem intent_no_match_empty_witness :
    (∀ e ∈ FORM_KEYWORDS, confidenceFor e (normalizeInput "") ≤ 2)
      ∧ analyzeUserIntent "" = []
      ∧ (∀ e ∈ FORM_KEYWORDS, confidenceFor e (normalizeInput "open the pod bay doors") ≤ 2)
      ∧ analyzeUserIntent "open the pod bay doors" = [] :=
  ⟨by decide, intent_no_match_empty "" (by decide), by decide,
    intent_no_match_empty "open the pod bay doors" (by decide)⟩

/-- C9: on "I want to change my beneficiary" the matcher ranks the
beneficiary-change template first, with confidence 1.0 > 0.7 (in tenths,
10 > 7). -/
theorem intent_beneficiary_first :
    ((analyzeUserIntent "I want to change my beneficiary").head?.map
      (fun s => (s.formId, decide (7 < s.confidence)))) = some ("beneficiary-change", true) := by
  decide

/-- When the session is live and the cursor points at a question,
`getCurrentQuestion` mutates nothing and returns that question. -/
theorem getCurrentQuestion_found (s : ElicitationState) (q : ElicitationQuestion)
    (hc : s.isComplete = false)
    (hq : s.questions.get? s.currentQuestionIndex = some q) :
    Elicitation.getCurrentQuestion (some s) = (some s, some q) := by
  have hlt : s.currentQuestionIndex < s.questions.length := (List.get?_eq_some.mp hq).1
  rw [Elicitation.getCurrentQuestion]
  rw [if_neg (by simp [hc]), if_neg (Nat.not_le.mpr hlt), hq]

/-- C2: an answer that fails validation (of any kind) makes `processAnswer`
return an error result and leave the session exactly as it was, so the same
question can be retried in place. -/
theorem submitAnswer_invalid_unchanged (s : ElicitationState) (q : ElicitationQuestion)
    (answer : String) (hc : s.isComplete = false)
    (hq : s.questions.get? s.currentQuestionIndex = some q)
    (hv : (Elicitation.validateAnswer q answer).valid = false) :
    Elicitation.processAnswer (some s) answer
      = (some s,
         { success := false, error := (Elicitation.validateAnswer q answer).error }) := by
  rw [Elicitation.processAnswer]
  simp only [getCurrentQuestion_found s q hc hq, hv]
  rfl

/-- First question of the beneficiary-change elicitation (the policy number). -/
def benQ0 : ElicitationQuestion :=
  { fieldName := "policyNumber", question := "Policy Number",
    description := "Your insurance policy number", type := .text, required := true,
    options := none,
    validation := { minLength := some 6, maxLength := some 20 } }

/-- The session `startElicitation FORM_TEMPLATES none "beneficiary-change"`
installs. -/
def benState : ElicitationState :=
  { formId := "beneficiary-change", formTitle := "Beneficiary Change Request",
    currentQuestionIndex := 0, answers := [], isComplete := false,
    questions := Elicitation.convertSchemaToQuestions
      (((getFormTemplate "beneficiary-change").map
          (fun t => t.elicitationSchema)).getD { properties := [], required := [] }) }

/-- Witness for `submitAnswer_invalid_unchanged`: submitting the empty string
for the required policy number leaves the freshly started beneficiary-change
session untouched. -/
theorem submitAnswer_invalid_unchanged_witness :
    (Elicitation.startElicitation FORM_TEMPLATES none "beneficiary-change").1 = some benState
    ∧ benState.isComplete = false
    ∧ benState.questions.get? benState.currentQuestionIndex = some benQ0
    ∧ (Elicitation.validateAnswer benQ0 "").valid = false
    ∧ Elicitation.processAnswer (some benState) ""
        = (some benState,
           { success := false, error := (Elicitation.validateAnswer benQ0 "").error }) :=
  ⟨by decide, by decide, by decide, by decide,
    submitAnswer_invalid_unchanged benState benQ0 "" (by decide) (by decide) (by decide)⟩

/-- C5 (amended): a validated answer is stored under the current field's name
and the cursor advances by exactly 1 — but what is stored is
`processedValue || answer`, i.e. the validator's processed value unless that
value is the empty string, in which case the raw answer is stored verbatim. -/
theorem submitAnswer_valid_stores_and_advances (s : ElicitationState)
    (q : ElicitationQuestion) (answer : String) (hc : s.isComplete = false)
    (hq : s.questions.get? s.currentQuestionIndex = some q)
    (hv : (Elicitation.validateAnswer q answer).valid = true) :
    Elicitation.processAnswer (some s) answer
      = (some { s with
            answers := recordSet s.answers q.fieldName
              (jsOrStr (Elicitation.validateAnswer q answer).processedValue answer),
            currentQuestionIndex := s.currentQuestionIndex + 1,
            isComplete := decide (s.questions.length ≤ s.currentQuestionIndex + 1) },
         { success := true,
           completed := some (decide (s.questions.length ≤ s.currentQuestionIndex + 1)) }) := by
  rw [Elicitation.processAnswer]
  simp only [getCurrentQuestion_found s q hc hq, hv]
  by_cases hlen : s.questions.length ≤ s.currentQuestionIndex + 1
  · simp [hlen]
  · simp [hlen, hc]

/-- Witness for `submitAnswer_valid_stores_and_advances`: a valid policy
number on the fresh beneficiary-change session is stored trimmed and the
cursor moves to 1. -/
theorem submitAnswer_valid_stores_and_advances_witness :
    benState.isComplete = false
    ∧ benState.questions.get? benState.currentQuestionIndex = some benQ0
    ∧ (Elicitation.validateAnswer benQ0 "POL123456").valid = true
    ∧ Elicitation.processAnswer (some benState) "POL123456"
        = (some { benState with
              answers := recordSet benState.answers benQ0.fieldName
                (jsOrStr (Elicitation.validateAnswer benQ0 "POL123456").processedValue
                  "POL123456"),
              currentQuestionIndex := benState.currentQuestionIndex + 1,
              isComplete :=
                decide (benState.questions.length ≤ benState.currentQuestionIndex + 1) },
           { success := true,
             completed := some
               (decide (benState.questions.length ≤ benState.currentQuestionIndex + 1)) }) :=
  ⟨by decide, by decide, by decide,
    submitAnswer_valid_stores_and_advances benState benQ0 "POL123456"
      (by decide) (by decide) (by decide)⟩

/-- The surrender-form elicitation session after three valid answers: the
cursor points at the optional `surrenderAmount` question. -/
def surrenderSession3 : Option ElicitationState :=
  (Elicitation.processAnswer
    (Elicitation.processAnswer
      (Elicitation.processAnswer
        (Elicitation.startElicitation FORM_TEMPLATES none "surrender-form").1
        "POL12345").1
      "John Doe").1
    "Full surrender").1

/-- C5, counterexample: answering the optional `surrenderAmount` question
with a single space passes validation with processed value "" (the
optional-empty short-circuit), yet the engine stores the raw answer " "
because the JS fallback `processedValue || answer` treats "" as falsy.  The
claim says the validator's validated/normalized value (the empty value) is
what gets stored. -/
theorem submitAnswer_stores_raw_counterexample :
    ((Elicitation.getCurrentQuestion surrenderSession3).2.map
        (fun q => ((Elicitation.validateAnswer q " ").valid,
          (Elicitation.validateAnswer q " ").processedValue)))
      = some (true, some "")
    ∧ ((Elicitation.processAnswer surrenderSession3 " ").1.bind
        (fun s => recordGet s.answers "surrenderAmount")) = some " " := by
  decide

/-- C6: starting elicitation with an unknown template id fails with the
template-not-found error and leaves the engine's session state exactly as it
was; in particular, starting from the no-session state leaves
`getCurrentQuestion` answering as "no session" (null, with no state
created). -/
theorem startElicitation_unknown_id (templates : List FormTemplate)
    (st : Option ElicitationState) (formId : String)
    (h : templates.find? (fun t => t.id == formId) = none) :
    Elicitation.startElicitation templates st formId
        = (st,
           { success := false, error := some ("Form template not found: " ++ formId) })
      ∧ Elicitation.getCurrentQuestion
          (Elicitation.startElicitation templates none formId).1 = (none, none) := by
  constructor
  · rw [Elicitation.startElicitation, h]
  · rw [Elicitation.startElicitation, h]
    rfl

/-- Witness for `startElicitation_unknown_id` on the real catalog and the id
"unknown-form". -/
theorem startElicitation_unknown_id_witness :
    FORM_TEMPLATES.find? (fun t => t.id == "unknown-form") = none
    ∧ (Elicitation.startElicitation FORM_TEMPLATES none "unknown-form"
          = (none,
             { success := false,
               error := some ("Form template not found: " ++ "unknown-form") })
        ∧ Elicitation.getCurrentQuestion
            (Elicitation.startElicitation FORM_TEMPLATES none "unknown-form").1
          = (none, none)) :=
  ⟨by decide, startElicitation_unknown_id FORM_TEMPLATES none "unknown-form" (by decide)⟩

/-- The final default step of suggestion resolution never returns `[]`. -/
theorem ite_default_ne_nil (l : List String) :
    (if l = [] then ["beneficiary-change"] else l) ≠ [] := by
  split
  · simp
  · assumption

/-- Suggestion resolution always produces a non-empty list: the priority
mapping, the keyword scan and finally the fixed default all bottom out in at
least one template id. -/
theorem suggestForms_ne_nil (templates : List FormTemplate)
    (answers : List (String × String)) :
    Discovery.suggestFormsBasedOnAnswers templates answers ≠ [] :=
  ite_default_ne_nil _

/-- A found discovery question implies the session holds a current node value. -/
theorem discovery_current_some (s : DiscoveryState) (q : DiscoveryQuestion)
    (hq : Discovery.getCurrentQuestion (some s) = some q) :
    ∃ v, s.currentQuestionId = some v := by
  rw [Discovery.getCurrentQuestion] at hq
  cases hid : s.currentQuestionId with
  | none => rw [hid] at hq; simp at hq
  | some v => exact ⟨v, rfl⟩

/-- C3 (amended): submitting an answer that is neither a key of the current
node's `followUp` mapping (including at nodes without one) nor one of the
property names inherited from `Object.prototype` immediately completes the
session, and the suggestion list produced at completion is never empty. -/
theorem discovery_unmatched_answer_completes (templates : List FormTemplate)
    (s : DiscoveryState) (q : DiscoveryQuestion) (answer : String)
    (hq : Discovery.getCurrentQuestion (some s) = some q)
    (hfu : ∀ fu, q.followUp = some fu → recordGet fu answer = none)
    (hproto : objectProtoProps.contains answer = false) :
    ∃ s' : DiscoveryState,
      Discovery.processAnswer templates (some s) answer
          = (some s',
             { success := true, completed := some true,
               suggestedForms := some s'.suggestedForms })
        ∧ s'.isComplete = true ∧ s'.suggestedForms ≠ [] := by
  have hp : answer ∉ objectProtoProps := by simpa using hproto
  have hnext : Discovery.followUpNext q answer = none := by
    cases hval : q.followUp with
    | none => simp [Discovery.followUpNext, hval]
    | some fu => simp [Discovery.followUpNext, hval, jsObjGet, hfu fu hval, hp]
  refine ⟨{ currentQuestionId := none, answers := recordSet s.answers q.id answer,
            isComplete := true,
            suggestedForms := Discovery.suggestFormsBasedOnAnswers templates
              (recordSet s.answers q.id answer) }, ?_, rfl, suggestForms_ne_nil _ _⟩
  rw [Discovery.processAnswer]
  simp only [hq, hnext]

/-- The discovery session state installed by `startDiscovery`. -/
def discoveryInit : DiscoveryState :=
  { currentQuestionId := some (.str "intent"), answers := [], isComplete := false,
    suggestedForms := [] }

/-- The root `intent` question of the discovery graph. -/
def intentQuestion : DiscoveryQuestion :=
  { id := "intent",
    question := "What would you like to do with your insurance policy?",
    type := "select",
    options := ["Change beneficiary information", "Take a loan against my policy",
      "Surrender my policy", "Change policy details", "Apply for reinstatement",
      "Other"],
    followUp := some [
      ("Change beneficiary information", "beneficiary-type"),
      ("Take a loan against my policy", "loan-type"),
      ("Surrender my policy", "surrender-type"),
      ("Change policy details", "change-type"),
      ("Apply for reinstatement", "reinstatement-reason"),
      ("Other", "describe-need")] }

/-- C3, counterexample: "constructor" is not a key of the root node's
`followUp` mapping, yet submitting it does NOT complete the session.  JS
bracket access `followUp['constructor']` finds the member inherited from
`Object.prototype`, which is truthy, so the engine stores that non-string
value as the current node id and reports `completed: false` instead of
running suggestion resolution. -/
theorem discovery_proto_answer_counterexample :
    (intentQuestion.followUp.map (fun fu => recordGet fu "constructor")) = some none
    ∧ ((Discovery.processAnswer FORM_TEMPLATES (some discoveryInit) "constructor").1.map
        (fun s => (s.isComplete, s.currentQuestionId, s.suggestedForms)))
      = some (false, some (JsVal.protoMember "constructor"), [])
    ∧ (Discovery.processAnswer FORM_TEMPLATES (some discoveryInit) "constructor").2.completed
      = some false := by
  decide

/-- Witness for `discovery_unmatched_answer_completes`: the answer "banana"
at the root (not a follow-up key, not an inherited property name) completes
a fresh session with a non-empty suggestion list. -/
theorem discovery_unmatched_answer_completes_witness :
    Discovery.getCurrentQuestion (some discoveryInit) = some intentQuestion
    ∧ (∀ fu, intentQuestion.followUp = some fu → recordGet fu "banana" = none)
    ∧ objectProtoProps.contains "banana" = false
    ∧ ∃ s' : DiscoveryState,
        Discovery.processAnswer FORM_TEMPLATES (some discoveryInit) "banana"
            = (some s',
               { success := true, completed := some true,
                 suggestedForms := some s'.suggestedForms })
          ∧ s'.isComplete = true ∧ s'.suggestedForms ≠ [] :=
  ⟨by decide, fun fu hfu => by cases hfu; decide, by decide,
    discovery_unmatched_answer_completes FORM_TEMPLATES discoveryInit intentQuestion
      "banana" (by decide) (fun fu hfu => by cases hfu; decide) (by decide)⟩

/-- C7: suggestion resolution applies the fixed root-answer priority mapping
first: "Change beneficiary information" yields the beneficiary-change
template, and "Surrender my policy" branches on the surrender-type answer,
non-forfeiture yielding `non-forfeiture-option` and anything else
`surrender-form`. -/
theorem discovery_root_priority (templates : List FormTemplate)
    (answers : List (String × String)) :
    (recordGet answers "intent" = some "Change beneficiary information" →
      Discovery.suggestFormsBasedOnAnswers templates answers = ["beneficiary-change"])
    ∧ (recordGet answers "intent" = some "Surrender my policy" →
      Discovery.suggestFormsBasedOnAnswers templates answers
        = (if recordGet answers "surrender-type"
              = some "Non-forfeiture option (keep some benefits)"
           then ["non-forfeiture-option"] else ["surrender-form"])) := by
  constructor
  · intro h
    rw [Discovery.suggestFormsBasedOnAnswers]
    simp [h]
  · intro h
    by_cases hnf : recordGet answers "surrender-type"
        = some "Non-forfeiture option (keep some benefits)"
    · rw [Discovery.suggestFormsBasedOnAnswers]
      simp [h, hnf]
    · rw [Discovery.suggestFormsBasedOnAnswers]
      simp [h, hnf]

/-- Witness for `discovery_root_priority` at two concrete answer maps. -/
theorem discovery_root_priority_witness :
    Discovery.suggestFormsBasedOnAnswers FORM_TEMPLATES
        [("intent", "Change beneficiary information")] = ["beneficiary-change"]
    ∧ Discovery.suggestFormsBasedOnAnswers FORM_TEMPLATES
        [("intent", "Surrender my policy"),
         ("surrender-type", "Non-forfeiture option (keep some benefits)")]
      = (if recordGet
            [("intent", "Surrender my policy"),
             ("surrender-type", "Non-forfeiture option (keep some benefits)")]
            "surrender-type"
            = some "Non-forfeiture option (keep some benefits)"
         then ["non-forfeiture-option"] else ["surrender-form"]) :=
  ⟨(discovery_root_priority FORM_TEMPLATES
      [("intent", "Change beneficiary information")]).1 (by decide),
   (discovery_root_priority FORM_TEMPLATES
      [("intent", "Surrender my policy"),
       ("surrender-type", "Non-forfeiture option (keep some benefits)")]).2 (by decide)⟩

/-- The discovery-engine states reachable through the public operations
(start, submitAnswer with any text, reset) from the initial no-session
state. -/
inductive DiscoveryReachable (templates : List FormTemplate) :
    Option DiscoveryState → Prop where
  | init : DiscoveryReachable templates none
  | start (st : Option DiscoveryState) :
      DiscoveryReachable templates st →
      DiscoveryReachable templates (Discovery.startDiscovery st).1
  | step (st : Option DiscoveryState) (answer : String) :
      DiscoveryReachable templates st →
      DiscoveryReachable templates (Discovery.processAnswer templates st answer).1
  | reset (st : Option DiscoveryState) :
      DiscoveryReachable templates st →
      DiscoveryReachable templates (Discovery.resetDiscovery st)

/-- C10: in every reachable discovery session, `isComplete` holds exactly
when `currentQuestionId` is null, and `suggestedForms` is non-empty exactly
when the session is complete. -/
theorem discovery_invariant (templates : List FormTemplate)
    (st : Option DiscoveryState) (h : DiscoveryReachable templates st) :
    ∀ s : DiscoveryState, st = some s →
      ((s.isComplete = true ↔ s.currentQuestionId = none)
        ∧ (s.suggestedForms ≠ [] ↔ s.isComplete = true)) := by
  induction h with
  | init =>
    intro s hs
    exact absurd hs (by simp)
  | start st0 _ _ =>
    intro s hs
    simp only [Discovery.startDiscovery, Option.some.injEq] at hs
    subst hs
    exact ⟨by simp, by simp⟩
  | reset st0 _ _ =>
    intro s hs
    exact absurd hs (by simp [Discovery.resetDiscovery])
  | step st0 answer _ ih =>
    intro s hs
    cases st0 with
    | none =>
      rw [Discovery.processAnswer] at hs
      exact absurd hs (by simp)
    | some s0 =>
      have inv0 := ih s0 rfl
      rw [Discovery.processAnswer] at hs
      cases hq : Discovery.getCurrentQuestion (some s0) with
      | none =>
        simp only [hq, Option.some.injEq] at hs
        subst hs
        exact inv0
      | some q =>
        simp only [hq] at hs
        cases hnext : Discovery.followUpNext q answer with
        | none =>
          simp only [hnext, Option.some.injEq] at hs
          subst hs
          refine ⟨by simp, ?_⟩
          simp [suggestForms_ne_nil templates (recordSet s0.answers q.id answer)]
        | some nid =>
          simp only [hnext, Option.some.injEq] at hs
          subst hs
          rcases discovery_current_some s0 q hq with ⟨qid, hqid⟩
          have hcomp : s0.isComplete = false := by
            cases hcv : s0.isComplete with
            | false => rfl
            | true => rw [inv0.1.mp hcv] at hqid; cases hqid
          have hsf : s0.suggestedForms = [] := by
            by_cases hsf1 : s0.suggestedForms = []
            · exact hsf1
            · rw [inv0.2.mp hsf1] at hcomp; cases hcomp
          refine ⟨by simp [hcomp], by simp [hsf, hcomp]⟩

/-- Witness for `discovery_invariant`: the state just after `startDiscovery`
is reachable and satisfies both equivalences. -/
theorem discovery_invariant_witness :
    DiscoveryReachable FORM_TEMPLATES (some discoveryInit)
    ∧ ((discoveryInit.isComplete = true ↔ discoveryInit.currentQuestionId = none)
        ∧ (discoveryInit.suggestedForms ≠ [] ↔ discoveryInit.isComplete = true)) :=
  ⟨DiscoveryReachable.start none DiscoveryReachable.init,
    discovery_invariant FORM_TEMPLATES (some discoveryInit)
      (DiscoveryReachable.start none DiscoveryReachable.init) discoveryInit rfl⟩

end FormsPoc
